import Mathlib

/-!
Shallow embedding of the freemium tier-entitlement, usage-metering and
rate-limiting core of the `fisioflow` repository
(`backend/mentorship/config.py`, `backend/mentorship/freemium_service.py`,
`backend/mentorship/middleware.py`), together with theorems settling the
frozen claims about it.

Conventions:
* Machine integers are modelled as `Nat`/`Int`; Python never overflows here.
* Timestamps are seconds since an arbitrary epoch (`Nat`).  `datetime.now()`
  is injected as an explicit `now` argument.
* Quota limits are `Int` with the sentinel `-1` meaning "unlimited", exactly
  as in the source configuration.
* Fallible Python code (code that can raise) is embedded as `Except PyErr`.
-/

namespace Fisioflow

/-- Embeds `MentorshipTier` enum from `config.py`. -/
inductive Tier where
  | free
  | premium
  | enterprise
deriving DecidableEq, Repr, Fintype

/-- Embeds `MentorshipTier(value)` on a raw string: returns the member or raises
`ValueError` for an unrecognized value. -/
def parseTier (s : String) : Option Tier :=
  if s = "free" then some .free
  else if s = "premium" then some .premium
  else if s = "enterprise" then some .enterprise
  else none

/-- Embeds `TierLimits` dataclass from `config.py`.  Numeric limits are `Int`
(`-1` = unlimited). -/
structure TierLimits where
  interns : Int
  cases : Int
  resources : Int
  sessions : Int
  storage_bytes : Int
  ai_requests_per_month : Int
  video_sessions_per_month : Int
  custom_competencies : Int
  export_reports : Bool
  priority_support : Bool
  advanced_analytics : Bool
  white_label : Bool
deriving DecidableEq, Repr

/-- Embeds `MentorshipConfig.TIER_LIMITS` with the default values taken by each
`os.getenv(..., default)` call (no environment overrides). -/
def TIER_LIMITS : Tier → TierLimits
  | .free =>
      { interns := 5
        cases := 10
        resources := 20
        sessions := 5
        storage_bytes := 1073741824        -- 1GB
        ai_requests_per_month := 50
        video_sessions_per_month := 2
        custom_competencies := 0
        export_reports := false
        priority_support := false
        advanced_analytics := false
        white_label := false }
  | .premium =>
      { interns := 50
        cases := 100
        resources := -1                     -- Ilimitado
        sessions := 50
        storage_bytes := 10737418240       -- 10GB
        ai_requests_per_month := 500
        video_sessions_per_month := 20
        custom_competencies := 50
        export_reports := true
        priority_support := true
        advanced_analytics := true
        white_label := false }
  | .enterprise =>
      { interns := -1
        cases := -1
        resources := -1
        sessions := -1
        storage_bytes := -1
        ai_requests_per_month := -1
        video_sessions_per_month := -1
        custom_competencies := -1
        export_reports := true
        priority_support := true
        advanced_analytics := true
        white_label := true }

/-- The six quota dimensions checked by `validate_tier_limits`
(the keys of its `current_usage` / `tier_limits` dicts, in insertion
order). -/
inductive Dim where
  | interns
  | cases
  | resources
  | sessions
  | storage_bytes
  | custom_competencies
deriving DecidableEq, Repr

/-- The dict keys of `current_usage`, in Python insertion order. -/
def allDims : List Dim :=
  [.interns, .cases, .resources, .sessions, .storage_bytes, .custom_competencies]

/-- The dict key string of each dimension. -/
def dimName : Dim → String
  | .interns => "interns"
  | .cases => "cases"
  | .resources => "resources"
  | .sessions => "sessions"
  | .storage_bytes => "storage_bytes"
  | .custom_competencies => "custom_competencies"

/-- The limit the `tier_limits` dict of `validate_tier_limits` assigns to a
dimension. -/
def dimLimit (L : TierLimits) : Dim → Int
  | .interns => L.interns
  | .cases => L.cases
  | .resources => L.resources
  | .sessions => L.sessions
  | .storage_bytes => L.storage_bytes
  | .custom_competencies => L.custom_competencies

/-- Order on limit values used by the spec: `-1` ("unlimited") is the top
element, other values compare numerically. -/
def limLe (a b : Int) : Prop :=
  b = -1 ∨ (a ≠ -1 ∧ a ≤ b)

instance (a b : Int) : Decidable (limLe a b) := by
  unfold limLe; infer_instance

/-! ## Record-store model

`freemium_service.py` reads rows of the SQLAlchemy models `User`, `Intern`,
`EducationalCase`, `EducationalResource`, `MentorshipSession` and
`Competency`.  We embed the record store as lists of the fields the core
actually queries. -/

/-- Embeds `User` row: `id` and the `tier` column (nullable string). -/
structure UserRec where
  id : String
  tier : Option String
deriving DecidableEq, Repr

/-- Embeds `Intern` row fields used by the core. -/
structure InternRec where
  mentor_id : String
  created_at : Nat
deriving DecidableEq, Repr

/-- Embeds `EducationalCase` row fields used by the core. -/
structure CaseRec where
  created_by : String
  created_at : Nat
deriving DecidableEq, Repr

/-- Embeds `EducationalResource` row fields used by the core. -/
structure ResourceRec where
  uploaded_by : String
  created_at : Nat
  file_size : Nat
deriving DecidableEq, Repr

/-- Embeds `MentorshipSession` row fields used by the core. -/
structure SessionRec where
  mentor_id : String
  scheduled_at : Nat
  updated_at : Nat
deriving DecidableEq, Repr

/-- Embeds `Competency` row fields used by the core. -/
structure CompetencyRec where
  created_by : String
  is_custom : Bool
deriving DecidableEq, Repr

/-- The record store (the SQLAlchemy session's visible data). -/
structure Db where
  users : List UserRec
  interns : List InternRec
  cases : List CaseRec
  resources : List ResourceRec
  sessions : List SessionRec
  competencies : List CompetencyRec
deriving Repr

/-- Embeds `db.query(User).filter(User.id == user_id).first()`. -/
def findUser (db : Db) (uid : String) : Option UserRec :=
  db.users.find? (fun u => u.id == uid)

/-- Embeds `user.tier or 'free'` — Python `or` falls back on `None` and on the
empty string (both falsy). -/
def tierStrOf (u : UserRec) : String :=
  match u.tier with
  | none => "free"
  | some s => if s = "" then "free" else s

/-- Errors raised by the Python code paths we embed. -/
inductive PyErr where
  | valueError (msg : String)
  | zeroDivisionError
deriving DecidableEq, Repr

/-! ## Usage Meter (`FreemiumService.get_user_usage_metrics`) -/

/-- Count of `Intern` rows with `mentor_id == uid` (no time window). -/
def internTotal (db : Db) (uid : String) : Nat :=
  (db.interns.filter (fun i => i.mentor_id == uid)).length

/-- Count of `EducationalCase` rows with `created_by == uid`. -/
def caseTotal (db : Db) (uid : String) : Nat :=
  (db.cases.filter (fun c => c.created_by == uid)).length

/-- Count of `EducationalResource` rows with `uploaded_by == uid`. -/
def resourceTotal (db : Db) (uid : String) : Nat :=
  (db.resources.filter (fun r => r.uploaded_by == uid)).length

/-- Embeds `func.sum(EducationalResource.file_size)` over rows with
`uploaded_by == uid`, with `.scalar() or 0` for the empty case. -/
def storageTotal (db : Db) (uid : String) : Nat :=
  ((db.resources.filter (fun r => r.uploaded_by == uid)).map
    (fun r => r.file_size)).sum

/-- Count of custom `Competency` rows created by `uid`. -/
def customCompetencyTotal (db : Db) (uid : String) : Nat :=
  (db.competencies.filter (fun c => c.created_by == uid && c.is_custom)).length

/-- Embeds `UsageMetrics` dataclass (the fields the claims depend on). -/
structure UsageMetrics where
  user_id : String
  tier : String
  period_start : Nat
  period_end : Nat
  interns_count : Nat
  cases_count : Nat
  resources_count : Nat
  sessions_count : Nat
  storage_used_bytes : Nat
  ai_requests_count : Nat
  video_sessions_count : Nat
  custom_competencies_count : Nat
  last_activity : Nat
deriving Repr

/-- Embeds `FreemiumService.get_user_usage_metrics(user_id, period_days=30)`.
`now` is the injected clock (`datetime.now()`); `timedelta(days=n)` is
`n * 86400` seconds (truncated at 0 by `Nat` subtraction, which no claim
exercises).  Raises `ValueError` when the user does not exist. -/
def get_user_usage_metrics (db : Db) (now : Nat) (uid : String)
    (periodDays : Nat := 30) : Except PyErr UsageMetrics :=
  let periodStart := now - periodDays * 86400
  match findUser db uid with
  | none => .error (.valueError ("Usuário " ++ uid ++ " não encontrado"))
  | some user =>
      .ok
        { user_id := uid
          tier := tierStrOf user
          period_start := periodStart
          period_end := now
          interns_count :=
            (db.interns.filter
              (fun i => i.mentor_id == uid && periodStart ≤ i.created_at)).length
          cases_count :=
            (db.cases.filter
              (fun c => c.created_by == uid && periodStart ≤ c.created_at)).length
          resources_count :=
            (db.resources.filter
              (fun r => r.uploaded_by == uid && periodStart ≤ r.created_at)).length
          sessions_count :=
            (db.sessions.filter
              (fun s => s.mentor_id == uid && periodStart ≤ s.scheduled_at)).length
          storage_used_bytes := storageTotal db uid
          ai_requests_count := 0
          video_sessions_count := 0
          custom_competencies_count := customCompetencyTotal db uid
          last_activity :=
            (((db.sessions.filter (fun s => s.mentor_id == uid)).map
              (fun s => s.updated_at)).max?).getD now }

/-! ## Entitlement Engine: `validate_tier_limits` -/

/-- The recommendation strings of `validate_tier_limits`, embedded
structurally.  The source builds Python f-strings; `exceededStorage`
carries the raw byte numbers that the source renders with float `:.1f`
MB formatting, the other two carry the integers interpolated verbatim. -/
inductive Rec where
  | exceededStorage (current : Nat) (limit : Int)
  | exceededCount (d : Dim) (current : Nat) (limit : Int)
  | nearing (d : Dim) (current : Nat) (limit : Int)
deriving DecidableEq, Repr

/-- Embeds `TierValidationResult` dataclass. -/
structure TierValidationResult where
  is_valid : Bool
  current_usage : Dim → Nat
  limits : Dim → Int
  exceeded_limits : List Dim
  recommendations : List Rec
  upgrade_required : Bool

/-- The usage dict `current_usage` of `validate_tier_limits`, read off a
`UsageMetrics` value. -/
def usageOf (m : UsageMetrics) : Dim → Nat
  | .interns => m.interns_count
  | .cases => m.cases_count
  | .resources => m.resources_count
  | .sessions => m.sessions_count
  | .storage_bytes => m.storage_used_bytes
  | .custom_competencies => m.custom_competencies_count

/-- The test `current_value >= limit_value * 0.8` of the source.  For the
integer ranges involved the IEEE-double product `limit * 0.8` compares to an
integer exactly like the rational `4*limit/5`, so the check is embedded as
the exact integer inequality `5*current ≥ 4*limit`. -/
def nearingCheck (current : Nat) (limit : Int) : Bool :=
  4 * limit ≤ 5 * (current : Int)

/-- Whether `validate_tier_limits` marks dimension `d` exceeded:
`limit_value != -1 and current_value >= limit_value`. -/
def exceededCheck (current : Nat) (limit : Int) : Bool :=
  limit != -1 && limit ≤ (current : Int)

/-- The straight-line body of `validate_tier_limits` after the user/tier
lookups: builds exceeded list and recommendations from the usage and limit
dicts, iterating the dimensions in dict insertion order. -/
def validateCore (usage : Dim → Nat) (lims : Dim → Int) : TierValidationResult :=
  let exceeded := allDims.filter (fun d => exceededCheck (usage d) (lims d))
  let recsExceeded : List Rec :=
    allDims.filterMap (fun d =>
      if exceededCheck (usage d) (lims d) then
        some (if d = .storage_bytes then Rec.exceededStorage (usage d) (lims d)
              else Rec.exceededCount d (usage d) (lims d))
      else none)
  let recsNearing : List Rec :=
    allDims.filterMap (fun d =>
      if lims d != -1 && nearingCheck (usage d) (lims d) && !(exceeded.contains d)
      then some (Rec.nearing d (usage d) (lims d))
      else none)
  { is_valid := exceeded.length == 0
    current_usage := usage
    limits := lims
    exceeded_limits := exceeded
    recommendations := recsExceeded ++ recsNearing
    upgrade_required := 0 < exceeded.length }

/-- Embeds `FreemiumService.validate_tier_limits(user_id)`.  Raises `ValueError`
for a missing user or an unrecognized tier string. -/
def validate_tier_limits (db : Db) (now : Nat) (uid : String) :
    Except PyErr TierValidationResult :=
  match findUser db uid with
  | none => .error (.valueError ("Usuário " ++ uid ++ " não encontrado"))
  | some user =>
      match parseTier (tierStrOf user) with
      | none =>
          .error (.valueError (tierStrOf user ++ " is not a valid MentorshipTier"))
      | some tier =>
          match get_user_usage_metrics db now uid with
          | .error e => .error e
          | .ok m => .ok (validateCore (usageOf m) (dimLimit (TIER_LIMITS tier)))

/-! ## Entitlement Engine: `can_perform_action` -/

/-- Count of `MentorshipSession` rows of `uid` scheduled at or after
`monthStart` (the source computes
`datetime.now().replace(day=1, hour=0, minute=0, second=0, microsecond=0)`;
that calendar derivative of the clock is injected here as `monthStart`). -/
def sessionMonthCount (db : Db) (uid : String) (monthStart : Nat) : Nat :=
  (db.sessions.filter
    (fun s => s.mentor_id == uid && monthStart ≤ s.scheduled_at)).length

/-- Embeds `FreemiumService.can_perform_action(user_id, action, **kwargs)`.
`fileSize` models the optional `file_size` kwarg
(`kwargs.get('file_size', 0)`); a missing user returns the normal tuple
`(False, "Usuário não encontrado")`; an unrecognized tier string raises. -/
def can_perform_action (db : Db) (monthStart : Nat) (uid : String)
    (action : String) (fileSize : Option Nat := none) :
    Except PyErr (Bool × String) :=
  match findUser db uid with
  | none => .ok (false, "Usuário não encontrado")
  | some user =>
      match parseTier (tierStrOf user) with
      | none =>
          .error (.valueError (tierStrOf user ++ " is not a valid MentorshipTier"))
      | some tier =>
          let limits := TIER_LIMITS tier
          if action = "create_intern" then
            let c := internTotal db uid
            if limits.interns != -1 && limits.interns ≤ (c : Int) then
              .ok (false, "Limite de estagiários atingido (" ++ toString c ++
                "/" ++ toString limits.interns ++
                "). Faça upgrade para adicionar mais.")
            else .ok (true, "Ação permitida")
          else if action = "create_case" then
            let c := caseTotal db uid
            if limits.cases != -1 && limits.cases ≤ (c : Int) then
              .ok (false, "Limite de casos clínicos atingido (" ++ toString c ++
                "/" ++ toString limits.cases ++
                "). Faça upgrade para adicionar mais.")
            else .ok (true, "Ação permitida")
          else if action = "upload_resource" then
            let size := fileSize.getD 0
            let c := resourceTotal db uid
            let storage := storageTotal db uid
            if limits.resources != -1 && limits.resources ≤ (c : Int) then
              .ok (false, "Limite de recursos atingido (" ++ toString c ++
                "/" ++ toString limits.resources ++
                "). Faça upgrade para adicionar mais.")
            else if limits.storage_bytes != -1 &&
                limits.storage_bytes < ((storage + size : Nat) : Int) then
              .ok (false,
                "Limite de armazenamento excedido. Faça upgrade ou remova recursos antigos.")
            else .ok (true, "Ação permitida")
          else if action = "schedule_session" then
            let c := sessionMonthCount db uid monthStart
            if limits.sessions != -1 && limits.sessions ≤ (c : Int) then
              .ok (false, "Limite de sessões mensais atingido (" ++ toString c ++
                "/" ++ toString limits.sessions ++
                "). Faça upgrade para agendar mais.")
            else .ok (true, "Ação permitida")
          else if action = "create_custom_competency" then
            let c := customCompetencyTotal db uid
            if limits.custom_competencies != -1 &&
                limits.custom_competencies ≤ (c : Int) then
              .ok (false, "Limite de competências customizadas atingido (" ++
                toString c ++ "/" ++ toString limits.custom_competencies ++
                "). Faça upgrade para criar mais.")
            else .ok (true, "Ação permitida")
          else if action = "export_report" then
            if !limits.export_reports then
              .ok (false,
                "Exportação de relatórios não disponível no seu plano. Faça upgrade para acessar esta funcionalidade.")
            else .ok (true, "Ação permitida")
          else if action = "use_ai" then
            if limits.ai_requests_per_month = 0 then
              .ok (false,
                "Assistência de IA não disponível no seu plano. Faça upgrade para acessar esta funcionalidade.")
            else .ok (true, "Ação permitida")
          else .ok (true, "Ação permitida")

/-! ## Entitlement Engine: `get_upgrade_recommendations` -/

/-- Embeds `TIER_PRICING` entry from `config.py` (prices are decimal literals,
embedded as exact rationals). -/
structure Pricing where
  monthly_price : ℚ
  yearly_price : ℚ
  currency : String
deriving DecidableEq, Repr

/-- The `TIER_PRICING` table. -/
def TIER_PRICING : Tier → Pricing
  | .free => { monthly_price := 0, yearly_price := 0, currency := "BRL" }
  | .premium =>
      { monthly_price := 999 / 10, yearly_price := 999, currency := "BRL" }
  | .enterprise =>
      { monthly_price := 2999 / 10, yearly_price := 2999, currency := "BRL" }

/-- The result dict of `get_upgrade_recommendations`. -/
structure UpgradeRecommendations where
  current_tier : Tier
  needs_upgrade : Bool
  exceeded_limits : List Dim
  usage_percentage : Dim → ℚ
  suggested_tier : Option Tier
  benefits : List String
  pricing : Option Pricing

/-- The percentage loop of `get_upgrade_recommendations`:
`min(100, (current/limit)*100)` per dimension with finite limit, `0` for
unlimited.  Python `/` raises `ZeroDivisionError` when some finite limit is
`0`, so the loop aborts with that error in that case. -/
def usagePercentages (usage : Dim → Nat) (lims : Dim → Int) :
    Except PyErr (Dim → ℚ) :=
  if allDims.any (fun d => lims d == 0) then .error .zeroDivisionError
  else
    .ok fun d =>
      if lims d != -1 then min 100 ((usage d : ℚ) / (lims d : ℚ) * 100) else 0

/-- Static benefits list of the Free → Premium suggestion. -/
def premiumBenefits : List String :=
  ["50 estagiários (vs 5 atual)",
   "100 casos clínicos (vs 10 atual)",
   "Recursos ilimitados (vs 20 atual)",
   "50 sessões mensais (vs 5 atual)",
   "10GB de armazenamento (vs 1GB atual)",
   "Exportação de relatórios",
   "Suporte prioritário",
   "Analytics avançados"]

/-- Static benefits list of the Premium → Enterprise suggestion. -/
def enterpriseBenefits : List String :=
  ["Estagiários ilimitados",
   "Casos clínicos ilimitados",
   "Recursos ilimitados",
   "Sessões ilimitadas",
   "Armazenamento ilimitado",
   "White label",
   "Competências customizadas ilimitadas",
   "Suporte dedicado"]

/-- The tier-suggestion branch of `get_upgrade_recommendations`: Free
suggests Premium when over limit or any usage percentage exceeds 80;
Premium suggests Enterprise only when over limit; Enterprise never gets a
suggestion. -/
def suggestionFor (t : Tier) (upgrade_required anyOver80 : Bool) :
    Option Tier × List String :=
  match t with
  | .free =>
      if upgrade_required || anyOver80 then (some .premium, premiumBenefits)
      else (none, [])
  | .premium =>
      if upgrade_required then (some .enterprise, enterpriseBenefits)
      else (none, [])
  | .enterprise => (none, [])

/-- Embeds `FreemiumService.get_upgrade_recommendations(user_id)`. -/
def get_upgrade_recommendations (db : Db) (now : Nat) (uid : String) :
    Except PyErr UpgradeRecommendations :=
  match validate_tier_limits db now uid with
  | .error e => .error e
  | .ok validation =>
      match get_user_usage_metrics db now uid with
      | .error e => .error e
      | .ok metrics =>
          match parseTier metrics.tier with
          | none =>
              .error (.valueError
                (metrics.tier ++ " is not a valid MentorshipTier"))
          | some current_tier =>
              match usagePercentages validation.current_usage validation.limits with
              | .error e => .error e
              | .ok pct =>
                  let anyOver80 := allDims.any (fun d => (80 : ℚ) < pct d)
                  let sb :=
                    suggestionFor current_tier validation.upgrade_required
                      anyOver80
                  .ok
                    { current_tier := current_tier
                      needs_upgrade := validation.upgrade_required
                      exceeded_limits := validation.exceeded_limits
                      usage_percentage := pct
                      suggested_tier := sb.1
                      benefits := sb.2
                      pricing := sb.1.map TIER_PRICING }

/-! ## Rate Limiter (`FreemiumMiddleware`, `middleware.py`)

The counter store is Redis: string keys mapping to a counter with a TTL.
The window key embeds the user id, the granularity and the bucket start
(the timestamp truncated to the granularity boundary), so we model keys
structurally.  Timestamps are epoch seconds; truncating a `datetime` to
the minute/hour/day boundary corresponds to `t / width` on epoch
seconds. -/

/-- The three rate-limit granularities (`requests_per_minute` /
`requests_per_hour` / `requests_per_day`). -/
inductive Gran where
  | minute
  | hour
  | day
deriving DecidableEq, Repr

/-- Bucket width in seconds (the `ttl` of `_check_rate_limit`). -/
def granSeconds : Gran → Nat
  | .minute => 60
  | .hour => 3600
  | .day => 86400

/-- The window key `rate_limit:{user_id}:{gran}:{bucket start}`. -/
structure RKey where
  user : String
  gran : Gran
  bucket : Nat
deriving DecidableEq, Repr

/-- The bucket index of timestamp `t` for granularity `g`. -/
def bucketOf (g : Gran) (t : Nat) : Nat := t / granSeconds g

/-- Redis contents: each live key holds its counter value and its absolute
expiry time (`none` = key absent). -/
def Store : Type := RKey → Option (Nat × Nat)

/-- The store with no keys. -/
def emptyStore : Store := fun _ => none

/-- Point update of the counter store. -/
def bump (s : Store) (k : RKey) (c e : Nat) : Store :=
  fun q => if q = k then some (c, e) else s q

/-- Embeds `INCR key` at time `now`, followed by `EXPIRE key ttl` when the
post-increment value is `1` (exactly the body of the `try` block of
`_check_rate_limit`).  A key whose expiry has passed counts as absent. -/
def incrCounter (s : Store) (k : RKey) (now ttl : Nat) : Nat × Store :=
  match s k with
  | none => (1, bump s k 1 (now + ttl))
  | some (c0, exp) =>
      let c := if exp ≤ now then 1 else c0 + 1
      let e := if c = 1 then now + ttl else exp
      (c, bump s k c e)

/-- The counter store as seen through the Redis client: `ok` is a healthy
store, `down` models the `except Exception` path of `_check_rate_limit`
(any of the `incr`/`expire` calls raising). -/
inductive Backend where
  | ok (s : Store)
  | down

/-- Embeds `FreemiumMiddleware._check_rate_limit(user_id, period, limit)` at time
`now`: increments the current bucket's counter, sets the TTL on the first
increment, and admits iff `current_count <= limit`.  On a store error it
returns `True` (fail open). -/
def check_rate_limit (b : Backend) (now : Nat) (uid : String) (g : Gran)
    (limit : Int) : Bool × Backend :=
  match b with
  | .down => (true, .down)
  | .ok s =>
      let k : RKey := ⟨uid, g, bucketOf g now⟩
      let r := incrCounter s k now (granSeconds g)
      (((r.1 : Int) ≤ limit), .ok r.2)

/-- Embeds `FreemiumMiddleware._get_retry_after(period)`. -/
def get_retry_after : Gran → Nat
  | .minute => 60
  | .hour => 3600
  | .day => 86400

/-- The per-tier `rate_limits` table of `_apply_rate_limiting`, as the
association list iterated by the `for period, limit in limits.items()`
loop (Python dict insertion order: minute, hour, day). -/
def rateLimitsFor : Tier → List (Gran × Int)
  | .free => [(.minute, 30), (.hour, 500), (.day, 2000)]
  | .premium => [(.minute, 100), (.hour, 2000), (.day, 10000)]
  | .enterprise => [(.minute, -1), (.hour, -1), (.day, -1)]

/-- Result of `_apply_rate_limiting`: allowed, or denied with a message and
`retry_after`. -/
structure RateDecision where
  allowed : Bool
  retry_after : Option Nat
deriving DecidableEq, Repr

/-- The granularity loop of `_apply_rate_limiting`: skip unlimited (`-1`)
granularities, otherwise check-and-increment; the first granularity whose
check fails short-circuits with its `retry_after`. -/
def rateLoop (b : Backend) (now : Nat) (uid : String) :
    List (Gran × Int) → RateDecision × Backend
  | [] => ({ allowed := true, retry_after := none }, b)
  | (g, limit) :: rest =>
      if limit = -1 then rateLoop b now uid rest
      else
        let r := check_rate_limit b now uid g limit
        if r.1 then rateLoop r.2 now uid rest
        else ({ allowed := false, retry_after := some (get_retry_after g) }, r.2)

/-- Embeds `FreemiumMiddleware._apply_rate_limiting(user_id, tier)` at time
`now`. -/
def apply_rate_limiting (b : Backend) (now : Nat) (uid : String)
    (tier : Tier) : RateDecision × Backend :=
  rateLoop b now uid (rateLimitsFor tier)

/-- Runs one request per timestamp through `_apply_rate_limiting`,
threading the counter store; returns the decisions in order. -/
def runRequests (b : Backend) (uid : String) (tier : Tier) :
    List Nat → List RateDecision × Backend
  | [] => ([], b)
  | t :: ts =>
      let r := apply_rate_limiting b t uid tier
      let rest := runRequests r.2 uid tier ts
      (r.1 :: rest.1, rest.2)

/-- The per-minute limit of a tier, read off the `rate_limits` table. -/
def minuteLimitOf (t : Tier) : Int :=
  ((rateLimitsFor t).lookup .minute).getD (-1)

/-- The `tier_hierarchy` ranking of `require_tier` in `middleware.py`. -/
def tierRank : Tier → Nat
  | .free => 0
  | .premium => 1
  | .enterprise => 2

/-! ## Proof devices: reachable counter-store states and concrete inputs -/

/-- Generic sequential runner over an explicit granularity/limit list
(used to reason about `runRequests` uniformly in the tier's limits). -/
def rateSim (items : List (Gran × Int)) (b : Backend) (uid : String) :
    List Nat → List RateDecision × Backend
  | [] => ([], b)
  | t :: ts =>
      let r := rateLoop b t uid items
      let rest := rateSim items r.2 uid ts
      (r.1 :: rest.1, rest.2)

/-- The counter store after `n` admitted same-minute requests whose first
request happened at time `t1`: each granularity's current bucket holds `n`
with the TTL set by the first request. -/
def stateAfterN (uid : String) (t1 : Nat) (n : Nat) : Store := fun k =>
  if k = ⟨uid, .minute, t1 / 60⟩ then some (n, t1 + 60)
  else if k = ⟨uid, .hour, t1 / 3600⟩ then some (n, t1 + 3600)
  else if k = ⟨uid, .day, t1 / 86400⟩ then some (n, t1 + 86400)
  else none

/-- The counter store after a further same-minute request was denied on the
minute granularity: only the minute counter was incremented. -/
def stateDenied (uid : String) (t1 : Nat) (n : Nat) : Store :=
  bump (stateAfterN uid t1 n) ⟨uid, .minute, t1 / 60⟩ (n + 1) (t1 + 60)

/-- A store whose minute bucket `0` for user `u` is exactly at the Free
per-minute limit, with 30 seconds of the bucket already elapsed at time
30. -/
def storeFullMinute : Store := fun k =>
  if k = ⟨"u", .minute, 0⟩ then some (30, 60) else none

/-- Concrete record store exercising the claims: a Free account exactly at
the intern limit, one just below it, a Premium account at 90% of its intern
limit, a Premium account over it, and a Free account exactly at the 1 GiB
storage cap. -/
def dbW : Db :=
  { users :=
      [{ id := "freeAt", tier := some ("free") },
       { id := "freeBelow", tier := some ("free") },
       { id := "premHigh", tier := some ("premium") },
       { id := "premOver", tier := some ("premium") },
       { id := "freeCap", tier := some ("free") }]
    interns :=
      List.replicate 5 { mentor_id := "freeAt", created_at := 10000000 } ++
      List.replicate 4 { mentor_id := "freeBelow", created_at := 10000000 } ++
      List.replicate 45 { mentor_id := "premHigh", created_at := 10000000 } ++
      List.replicate 51 { mentor_id := "premOver", created_at := 10000000 }
    cases := []
    resources :=
      [{ uploaded_by := "freeCap", created_at := 10000000,
         file_size := 1073741824 }]
    sessions := []
    competencies := [] }

/-- The `TierValidationResult` computed for `freeBelow` in `dbW` (the
fallback branch is unreachable). -/
def vResW : TierValidationResult :=
  match validate_tier_limits dbW 10000000 "freeBelow" with
  | .ok r => r
  | .error _ => validateCore (fun _ => 0) (fun _ => -1)

/-- The upgrade recommendations computed for `premOver` in `dbW` (the
fallback branch is unreachable). -/
def urW : UpgradeRecommendations :=
  match get_upgrade_recommendations dbW 10000000 "premOver" with
  | .ok r => r
  | .error _ =>
      { current_tier := .free
        needs_upgrade := false
        exceeded_limits := []
        usage_percentage := fun _ => 0
        suggested_tier := none
        benefits := []
        pricing := none }

/-- The upgrade recommendations computed for `premHigh` in `dbW` (the
fallback branch is unreachable). -/
def urHigh : UpgradeRecommendations :=
  match get_upgrade_recommendations dbW 10000000 "premHigh" with
  | .ok r => r
  | .error _ =>
      { current_tier := .free
        needs_upgrade := false
        exceeded_limits := []
        usage_percentage := fun _ => 0
        suggested_tier := none
        benefits := []
        pricing := none }

/-- Monotonicity of one numeric limit column across the tier ladder,
treating the `-1` sentinel as the top element. -/
def limitsMono (f : TierLimits → Int) : Prop :=
  limLe (f (TIER_LIMITS .free)) (f (TIER_LIMITS .premium)) ∧
  limLe (f (TIER_LIMITS .premium)) (f (TIER_LIMITS .enterprise))

/-- Monotonicity of one boolean feature column across the tier ladder. -/
def flagMono (f : TierLimits → Bool) : Prop :=
  f (TIER_LIMITS .free) ≤ f (TIER_LIMITS .premium) ∧
  f (TIER_LIMITS .premium) ≤ f (TIER_LIMITS .enterprise)

/-! ## Theorems -/

/-- Every quota dimension is a key of the usage dict. -/
theorem dim_mem_allDims (d : Dim) : d ∈ allDims := by
  cases d <;> simp [allDims]

/-- C9: under the default configuration the tier limits table is monotone:
every numeric quota dimension satisfies Free ≤ Premium ≤ Enterprise with the
unlimited sentinel `-1` as the maximal element, and every boolean feature
flag is non-decreasing from Free to Premium to Enterprise. -/
theorem tier_limits_monotone :
    limitsMono (fun L => L.interns) ∧
    limitsMono (fun L => L.cases) ∧
    limitsMono (fun L => L.resources) ∧
    limitsMono (fun L => L.sessions) ∧
    limitsMono (fun L => L.storage_bytes) ∧
    limitsMono (fun L => L.ai_requests_per_month) ∧
    limitsMono (fun L => L.video_sessions_per_month) ∧
    limitsMono (fun L => L.custom_competencies) ∧
    flagMono (fun L => L.export_reports) ∧
    flagMono (fun L => L.priority_support) ∧
    flagMono (fun L => L.advanced_analytics) ∧
    flagMono (fun L => L.white_label) := by
  unfold limitsMono flagMono
  decide

/-- C5: when the counter store raises during the rate-limit check, the
request is admitted (`_check_rate_limit` returns `True` on any exception,
so `_apply_rate_limiting` allows the request). -/
theorem rate_limit_fails_open (now : Nat) (uid : String) (tier : Tier) :
    (apply_rate_limiting Backend.down now uid tier).1.allowed = true := by
  cases tier <;> rfl

/-- C7 counterexample: for an account id that references no account,
`can_perform_action` does not fail — it returns the ordinary result tuple
`(False, "Usuário não encontrado")`, refuting the claim that every
Entitlement Engine operation fails with a NotFound error rather than
returning a normal result. -/
theorem unknown_account_counterexample :
    can_perform_action dbW 0 ("ghost") ("create_intern") none =
      .ok (false, "Usuário não encontrado") ∧
    (can_perform_action dbW 0 ("ghost") ("create_intern") none).isOk = true := by
  exact ⟨rfl, rfl⟩

/-- C7 (amended): for an unknown account id, the Usage Meter
(`get_user_usage_metrics`) and `validate_tier_limits` fail with the
NotFound-style `ValueError`; `can_perform_action` instead returns the
normal denial tuple `(False, "Usuário não encontrado")`. -/
theorem unknown_account_behaviour (db : Db) (now monthStart : Nat)
    (uid : String) (h : findUser db uid = none) (action : String)
    (fs : Option Nat) (pd : Nat) :
    get_user_usage_metrics db now uid pd =
      .error (.valueError ("Usuário " ++ uid ++ " não encontrado")) ∧
    validate_tier_limits db now uid =
      .error (.valueError ("Usuário " ++ uid ++ " não encontrado")) ∧
    can_perform_action db monthStart uid action fs =
      .ok (false, "Usuário não encontrado") := by
  refine ⟨?_, ?_, ?_⟩ <;>
    simp [get_user_usage_metrics, validate_tier_limits, can_perform_action, h]

/-- Witness for C7 (amended) at a concrete store and account id. -/
theorem unknown_account_behaviour_witness :
    get_user_usage_metrics dbW 123 ("ghost") 30 =
      .error (.valueError ("Usuário " ++ "ghost" ++ " não encontrado")) ∧
    validate_tier_limits dbW 123 ("ghost") =
      .error (.valueError ("Usuário " ++ "ghost" ++ " não encontrado")) ∧
    can_perform_action dbW 7 ("ghost") ("export_report") none =
      .ok (false, "Usuário não encontrado") :=
  unknown_account_behaviour dbW 123 7 ("ghost") rfl ("export_report") none 30

/-- C2: for an account whose current count of a create-dimension equals the
tier's finite limit `N`, `can_perform_action` on the corresponding
create-action returns `(False, message)` with the count and limit embedded;
at `N - 1` it returns `(True, ...)` — for `create_intern`, `create_case`
and `create_custom_competency`. -/
theorem can_perform_create_limits (db : Db) (monthStart : Nat) (uid : String)
    (u : UserRec) (hu : findUser db uid = some u) (tier : Tier)
    (ht : parseTier (tierStrOf u) = some tier) (fs : Option Nat) :
    ((TIER_LIMITS tier).interns ≠ -1 ∧
        (internTotal db uid : Int) = (TIER_LIMITS tier).interns →
      can_perform_action db monthStart uid ("create_intern") fs =
        .ok (false, "Limite de estagiários atingido (" ++
          toString (internTotal db uid) ++ "/" ++
          toString (TIER_LIMITS tier).interns ++
          "). Faça upgrade para adicionar mais.")) ∧
    ((TIER_LIMITS tier).interns ≠ -1 ∧
        (internTotal db uid : Int) = (TIER_LIMITS tier).interns - 1 →
      can_perform_action db monthStart uid ("create_intern") fs =
        .ok (true, "Ação permitida")) ∧
    ((TIER_LIMITS tier).cases ≠ -1 ∧
        (caseTotal db uid : Int) = (TIER_LIMITS tier).cases →
      can_perform_action db monthStart uid ("create_case") fs =
        .ok (false, "Limite de casos clínicos atingido (" ++
          toString (caseTotal db uid) ++ "/" ++
          toString (TIER_LIMITS tier).cases ++
          "). Faça upgrade para adicionar mais.")) ∧
    ((TIER_LIMITS tier).cases ≠ -1 ∧
        (caseTotal db uid : Int) = (TIER_LIMITS tier).cases - 1 →
      can_perform_action db monthStart uid ("create_case") fs =
        .ok (true, "Ação permitida")) ∧
    ((TIER_LIMITS tier).custom_competencies ≠ -1 ∧
        (customCompetencyTotal db uid : Int) =
          (TIER_LIMITS tier).custom_competencies →
      can_perform_action db monthStart uid ("create_custom_competency") fs =
        .ok (false, "Limite de competências customizadas atingido (" ++
          toString (customCompetencyTotal db uid) ++ "/" ++
          toString (TIER_LIMITS tier).custom_competencies ++
          "). Faça upgrade para criar mais.")) ∧
    ((TIER_LIMITS tier).custom_competencies ≠ -1 ∧
        (customCompetencyTotal db uid : Int) =
          (TIER_LIMITS tier).custom_competencies - 1 →
      can_perform_action db monthStart uid ("create_custom_competency") fs =
        .ok (true, "Ação permitida")) := by
  refine ⟨?_, ?_, ?_, ?_, ?_, ?_⟩
  · rintro ⟨hne, hc⟩
    simp [can_perform_action, hu, ht, hc, hne]
  · rintro ⟨hne, hc⟩
    have hlt : ¬((TIER_LIMITS tier).interns ≤ (internTotal db uid : Int)) := by
      omega
    simp [can_perform_action, hu, ht, hlt]
  · rintro ⟨hne, hc⟩
    simp [can_perform_action, hu, ht, hc, hne]
  · rintro ⟨hne, hc⟩
    have hlt : ¬((TIER_LIMITS tier).cases ≤ (caseTotal db uid : Int)) := by
      omega
    simp [can_perform_action, hu, ht, hlt]
  · rintro ⟨hne, hc⟩
    simp [can_perform_action, hu, ht, hc, hne]
  · rintro ⟨hne, hc⟩
    have hlt :
        ¬((TIER_LIMITS tier).custom_competencies ≤
          (customCompetencyTotal db uid : Int)) := by
      omega
    simp [can_perform_action, hu, ht, hlt]

/-- Witness for C2: the Free account `freeAt` holds 5 interns (limit 5) and
is denied with the exact message; `freeBelow` holds 4 and is allowed. -/
theorem can_perform_create_limits_witness :
    can_perform_action dbW 0 ("freeAt") ("create_intern") none =
      .ok (false, "Limite de estagiários atingido (" ++
        toString (internTotal dbW ("freeAt")) ++ "/" ++
        toString (TIER_LIMITS Tier.free).interns ++
        "). Faça upgrade para adicionar mais.") ∧
    can_perform_action dbW 0 ("freeBelow") ("create_intern") none =
      .ok (true, "Ação permitida") :=
  ⟨(can_perform_create_limits dbW 0 ("freeAt") _ rfl .free rfl none).1
      ⟨by decide, by decide⟩,
   (can_perform_create_limits dbW 0 ("freeBelow") _ rfl .free rfl none).2.1
      ⟨by decide, by decide⟩⟩

/-- C3: `upload_resource` is denied when the resource count is at/above the
tier's finite resource limit, and independently when current cumulative
storage plus the file size exceeds the finite storage limit; in particular
an account exactly at its storage cap uploading a file of positive size is
denied whatever its resource count. -/
theorem can_perform_upload_denials (db : Db) (monthStart : Nat)
    (uid : String) (u : UserRec) (hu : findUser db uid = some u) (tier : Tier)
    (ht : parseTier (tierStrOf u) = some tier) (fs : Option Nat) :
    ((TIER_LIMITS tier).resources ≠ -1 ∧
        (TIER_LIMITS tier).resources ≤ (resourceTotal db uid : Int) →
      (can_perform_action db monthStart uid ("upload_resource") fs).map
          (fun p => p.1) = .ok false) ∧
    ((TIER_LIMITS tier).storage_bytes ≠ -1 ∧
        (TIER_LIMITS tier).storage_bytes <
          ((storageTotal db uid + fs.getD 0 : Nat) : Int) →
      (can_perform_action db monthStart uid ("upload_resource") fs).map
          (fun p => p.1) = .ok false) ∧
    ((TIER_LIMITS tier).storage_bytes ≠ -1 ∧
        (storageTotal db uid : Int) = (TIER_LIMITS tier).storage_bytes ∧
        0 < fs.getD 0 →
      (can_perform_action db monthStart uid ("upload_resource") fs).map
          (fun p => p.1) = .ok false) := by
  have main : (TIER_LIMITS tier).storage_bytes ≠ -1 →
      (TIER_LIMITS tier).storage_bytes <
        ((storageTotal db uid + fs.getD 0 : Nat) : Int) →
      (can_perform_action db monthStart uid ("upload_resource") fs).map
        (fun p => p.1) = .ok false := by
    intro hne hgt
    have hgt2 : (TIER_LIMITS tier).storage_bytes <
        (storageTotal db uid : Int) + (fs.getD 0 : Int) := by
      push_cast at hgt
      omega
    by_cases hr : (TIER_LIMITS tier).resources ≠ -1 ∧
        (TIER_LIMITS tier).resources ≤ (resourceTotal db uid : Int)
    · simp [can_perform_action, hu, ht, hr.1, hr.2, Except.map]
    · rcases not_and_or.mp hr with h | h
      · simp [can_perform_action, hu, ht, not_not.mp h, hne, hgt2, Except.map]
      · simp [can_perform_action, hu, ht, h, hne, hgt2, Except.map]
  refine ⟨?_, fun h => main h.1 h.2, fun h => main h.1 ?_⟩
  · rintro ⟨hne, hge⟩
    simp [can_perform_action, hu, ht, hne, hge, Except.map]
  · rcases h with ⟨-, hcap, hpos⟩
    push_cast
    omega

/-- Witness for C3: the Free account `freeCap` stores exactly 1 GiB (the
Free cap) and is denied a further 1 GiB upload. -/
theorem can_perform_upload_denials_witness :
    (can_perform_action dbW 0 ("freeCap") ("upload_resource")
        (some 1073741824)).map (fun p => p.1) = .ok false :=
  (can_perform_upload_denials dbW 0 ("freeCap") _ rfl .free rfl
      (some 1073741824)).2.2 ⟨by decide, by decide, by decide⟩

/-- C10: calling `can_perform_action` for `upload_resource` without a
`file_size` in the context treats the size as 0, so an account exactly at
its storage cap passes the storage check and only the resource-count check
can deny. -/
theorem upload_without_file_size (db : Db) (monthStart : Nat) (uid : String)
    (u : UserRec) (hu : findUser db uid = some u) (tier : Tier)
    (ht : parseTier (tierStrOf u) = some tier)
    (hcap : (storageTotal db uid : Int) = (TIER_LIMITS tier).storage_bytes) :
    ((TIER_LIMITS tier).resources ≠ -1 ∧
        (TIER_LIMITS tier).resources ≤ (resourceTotal db uid : Int) →
      can_perform_action db monthStart uid ("upload_resource") none =
        .ok (false, "Limite de recursos atingido (" ++
          toString (resourceTotal db uid) ++ "/" ++
          toString (TIER_LIMITS tier).resources ++
          "). Faça upgrade para adicionar mais.")) ∧
    (¬((TIER_LIMITS tier).resources ≠ -1 ∧
        (TIER_LIMITS tier).resources ≤ (resourceTotal db uid : Int)) →
      can_perform_action db monthStart uid ("upload_resource") none =
        .ok (true, "Ação permitida")) := by
  have hs : ¬((TIER_LIMITS tier).storage_bytes <
      ((storageTotal db uid + (none : Option Nat).getD 0 : Nat) : Int)) := by
    simp
    omega
  constructor
  · rintro ⟨hne, hge⟩
    simp [can_perform_action, hu, ht, hne, hge]
  · intro hn
    rcases not_and_or.mp hn with h | h
    · simp [can_perform_action, hu, ht, not_not.mp h, hs]
      intro _
      omega
    · simp [can_perform_action, hu, ht, h, hs]
      intro _
      omega

/-- Witness for C10: `freeCap` sits exactly at the Free storage cap with
1 of 20 resources; an upload with no file size in the context is allowed. -/
theorem upload_without_file_size_witness :
    can_perform_action dbW 0 ("freeCap") ("upload_resource") none =
      .ok (true, "Ação permitida") :=
  (upload_without_file_size dbW 0 ("freeCap") _ rfl .free rfl
      (by decide)).2 (by decide)

/-- The exceeded test of `validate_tier_limits` in propositional form. -/
theorem exceededCheck_iff (u : Nat) (l : Int) :
    exceededCheck u l = true ↔ (l ≠ -1 ∧ l ≤ (u : Int)) := by
  simp [exceededCheck]

/-- Membership in the exceeded list of `validateCore`. -/
theorem mem_validateCore_exceeded (usage : Dim → Nat) (lims : Dim → Int)
    (d : Dim) :
    d ∈ (validateCore usage lims).exceeded_limits ↔
      (lims d ≠ -1 ∧ lims d ≤ (usage d : Int)) := by
  rw [show (validateCore usage lims).exceeded_limits =
      allDims.filter (fun d => exceededCheck (usage d) (lims d)) from rfl]
  rw [List.mem_filter]
  simp [dim_mem_allDims, exceededCheck_iff]

/-- Every `.ok` result of `validate_tier_limits` is a `validateCore`
value. -/
theorem validate_tier_limits_ok_shape (db : Db) (now : Nat) (uid : String)
    (r : TierValidationResult)
    (h : validate_tier_limits db now uid = .ok r) :
    ∃ usage lims, r = validateCore usage lims := by
  unfold validate_tier_limits at h
  split at h
  · exact absurd h (by simp)
  · split at h
    · exact absurd h (by simp)
    · split at h
      · exact absurd h (by simp)
      · exact ⟨_, _, (Except.ok.inj h).symm⟩

/-- C1: a dimension is listed as exceeded by `validate_tier_limits` iff its
limit is finite (not the `-1` sentinel) and usage is at or above it;
`is_valid` holds exactly when the exceeded list is empty and
`upgrade_required` exactly when it is non-empty; and every non-exceeded
finite-limit dimension whose usage reaches 80% of the limit yields a
nearing-limit recommendation (which, by the previous two equivalences,
cannot change `is_valid` or `upgrade_required`). -/
theorem validate_exceeded_iff (db : Db) (now : Nat) (uid : String)
    (r : TierValidationResult)
    (h : validate_tier_limits db now uid = .ok r) (d : Dim) :
    (d ∈ r.exceeded_limits ↔
      (r.limits d ≠ -1 ∧ r.limits d ≤ (r.current_usage d : Int))) ∧
    (r.is_valid = true ↔ r.exceeded_limits = []) ∧
    (r.upgrade_required = true ↔ r.exceeded_limits ≠ []) ∧
    ((r.limits d ≠ -1 ∧ 4 * r.limits d ≤ 5 * (r.current_usage d : Int) ∧
        d ∉ r.exceeded_limits) →
      Rec.nearing d (r.current_usage d) (r.limits d) ∈ r.recommendations) := by
  obtain ⟨usage, lims, rfl⟩ := validate_tier_limits_ok_shape db now uid r h
  have hE : (validateCore usage lims).exceeded_limits =
      allDims.filter (fun d => exceededCheck (usage d) (lims d)) := rfl
  refine ⟨mem_validateCore_exceeded usage lims d, ?_, ?_, ?_⟩
  · rw [hE]
    show (((allDims.filter
        (fun d => exceededCheck (usage d) (lims d))).length == 0) = true ↔ _)
    simp [List.length_eq_zero]
  · rw [hE]
    show (decide (0 < (allDims.filter
        (fun d => exceededCheck (usage d) (lims d))).length) = true ↔ _)
    simp [List.length_pos]
  · rintro ⟨hne, hnear, hnot⟩
    have hne' : lims d ≠ -1 := hne
    have hnear' : 4 * lims d ≤ 5 * (usage d : Int) := hnear
    have hnot' : d ∉ allDims.filter
        (fun d => exceededCheck (usage d) (lims d)) := hE ▸ hnot
    have hcont : (allDims.filter
        (fun d => exceededCheck (usage d) (lims d))).contains d = false := by
      simpa using hnot'
    show Rec.nearing d (usage d) (lims d) ∈ _ ++ _
    refine List.mem_append_right _ ?_
    rw [List.mem_filterMap]
    refine ⟨d, dim_mem_allDims d, ?_⟩
    simp [nearingCheck, hne', hnear', hcont]
    intro hd
    cases hck : exceededCheck (usage d) (lims d)
    · rfl
    · exact absurd (List.mem_filter.mpr ⟨hd, hck⟩) hnot'

/-- Witness for C1 at the concrete store `dbW` and the Free account
`freeBelow` (4 of 5 interns used, hence a nearing-limit situation). -/
theorem validate_exceeded_iff_witness :
    (Dim.interns ∈ vResW.exceeded_limits ↔
      (vResW.limits .interns ≠ -1 ∧
        vResW.limits .interns ≤ (vResW.current_usage .interns : Int))) ∧
    (vResW.is_valid = true ↔ vResW.exceeded_limits = []) ∧
    (vResW.upgrade_required = true ↔ vResW.exceeded_limits ≠ []) ∧
    ((vResW.limits .interns ≠ -1 ∧
        4 * vResW.limits .interns ≤ 5 * (vResW.current_usage .interns : Int) ∧
        Dim.interns ∉ vResW.exceeded_limits) →
      Rec.nearing .interns (vResW.current_usage .interns)
          (vResW.limits .interns) ∈ vResW.recommendations) :=
  validate_exceeded_iff dbW 10000000 ("freeBelow") vResW rfl .interns

/-- C8 counterexample: a Premium account at 90% of its intern limit (45 of
50, nothing exceeded) has a usage percentage above 80 yet receives no tier
suggestion, refuting the claim that any percentage above 80 yields a
suggestion strictly above the current tier for every non-top tier. -/
theorem upgrade_suggestion_counterexample :
    get_upgrade_recommendations dbW 10000000 ("premHigh") = .ok urHigh ∧
    urHigh.current_tier = Tier.premium ∧
    urHigh.needs_upgrade = false ∧
    urHigh.suggested_tier = none ∧
    (80 : ℚ) < urHigh.usage_percentage Dim.interns := by
  refine ⟨rfl, rfl, rfl, rfl, ?_⟩
  have h1 : urHigh.usage_percentage Dim.interns =
      min 100 (((45 : ℕ) : ℚ) / ((50 : ℤ) : ℚ) * 100) := rfl
  rw [h1]
  push_cast
  rw [show ((45 : ℚ) / 50 * 100) = 90 by norm_num]
  rw [min_eq_right (by norm_num : (90 : ℚ) ≤ 100)]
  norm_num

/-- Case analysis of the suggestion branch. -/
theorem suggestionFor_spec (t : Tier) (u a : Bool) :
    (∀ s, (suggestionFor t u a).1 = some s → tierRank t < tierRank s) ∧
    (t = .free →
      ((suggestionFor t u a).1 = some .premium ↔ (u = true ∨ a = true))) ∧
    (t = .premium →
      ((suggestionFor t u a).1 = some .enterprise ↔ u = true)) ∧
    (t = .enterprise → (suggestionFor t u a).1 = none) := by
  revert u a
  revert t
  decide

/-- Every `.ok` result of `get_upgrade_recommendations` has the shape built
from a validation result, a tier and a percentage map. -/
theorem get_upgrade_recommendations_ok_shape (db : Db) (now : Nat)
    (uid : String) (r : UpgradeRecommendations)
    (h : get_upgrade_recommendations db now uid = .ok r) :
    ∃ (v : TierValidationResult) (t : Tier) (pct : Dim → ℚ),
      r = { current_tier := t
            needs_upgrade := v.upgrade_required
            exceeded_limits := v.exceeded_limits
            usage_percentage := pct
            suggested_tier :=
              (suggestionFor t v.upgrade_required
                (allDims.any (fun d => (80 : ℚ) < pct d))).1
            benefits :=
              (suggestionFor t v.upgrade_required
                (allDims.any (fun d => (80 : ℚ) < pct d))).2
            pricing :=
              (suggestionFor t v.upgrade_required
                (allDims.any (fun d => (80 : ℚ) < pct d))).1.map
                TIER_PRICING } := by
  unfold get_upgrade_recommendations at h
  split at h
  · exact absurd h (by simp)
  · split at h
    · exact absurd h (by simp)
    · split at h
      · exact absurd h (by simp)
      · split at h
        · exact absurd h (by simp)
        · exact ⟨_, _, _, (Except.ok.inj h).symm⟩

/-- C8 (amended): a suggested tier, when present, is strictly above the
current tier and the top tier never gets one; a Free account is suggested
Premium exactly when `upgrade_required` holds or some usage percentage
exceeds 80, while a Premium account is suggested Enterprise exactly when
`upgrade_required` holds — a percentage above 80 alone does not trigger a
suggestion for Premium. -/
theorem upgrade_suggestion_behaviour (db : Db) (now : Nat) (uid : String)
    (r : UpgradeRecommendations)
    (h : get_upgrade_recommendations db now uid = .ok r) :
    (∀ s, r.suggested_tier = some s →
      tierRank r.current_tier < tierRank s) ∧
    (r.current_tier = .free →
      (r.suggested_tier = some .premium ↔
        (r.needs_upgrade = true ∨ ∃ d, (80 : ℚ) < r.usage_percentage d))) ∧
    (r.current_tier = .premium →
      (r.suggested_tier = some .enterprise ↔ r.needs_upgrade = true)) ∧
    (r.current_tier = .enterprise → r.suggested_tier = none) := by
  obtain ⟨v, t, pct, rfl⟩ :=
    get_upgrade_recommendations_ok_shape db now uid r h
  have hany : ((allDims.any (fun d => (80 : ℚ) < pct d)) = true) ↔
      (∃ d, (80 : ℚ) < pct d) := by
    rw [List.any_eq_true]
    constructor
    · rintro ⟨d, _, hd⟩
      exact ⟨d, by simpa using hd⟩
    · rintro ⟨d, hd⟩
      exact ⟨d, dim_mem_allDims d, by simpa using hd⟩
  obtain hs := suggestionFor_spec t v.upgrade_required
    (allDims.any (fun d => (80 : ℚ) < pct d))
  refine ⟨hs.1, ?_, hs.2.2.1, hs.2.2.2⟩
  intro ht
  rw [hs.2.1 ht]
  exact or_congr Iff.rfl hany

/-- Witness for C8 (amended): the Premium account `premOver` (51 of 50
interns, limit exceeded) is suggested Enterprise. -/
theorem upgrade_suggestion_behaviour_witness :
    urW.suggested_tier = some Tier.enterprise ∧
    urW.current_tier = Tier.premium :=
  ⟨((upgrade_suggestion_behaviour dbW 10000000 ("premOver") urW
      rfl).2.2.1 rfl).mpr rfl, rfl⟩

set_option maxRecDepth 100000 in
/-- C6 counterexample: a Free account's 31st request in the minute bucket
`[0, 60)` issued at second 30 is denied with `retry_after = 60`, although
only 30 seconds remain in the bucket — the reported value is the fixed
bucket width, not the remaining time. -/
theorem retry_after_fixed_counterexample :
    ((runRequests (Backend.ok emptyStore) ("u") Tier.free
        (List.replicate 31 30)).1.getLast? =
      some { allowed := false, retry_after := some 60 }) ∧
    granSeconds Gran.minute - 30 % granSeconds Gran.minute = 30 ∧
    (60 : Nat) ≠ 30 := by
  refine ⟨rfl, by decide, by decide⟩

/-- C6 (amended): when a granularity's post-increment count exceeds its
limit, the reported `retry_after` is that granularity's full bucket width
(60, 3600 or 86400 seconds), independent of the time already elapsed in
the bucket. -/
theorem retry_after_full_bucket_width (s : Store) (now : Nat) (uid : String)
    (g : Gran) (limit : Int) (rest : List (Gran × Int)) (hne : limit ≠ -1)
    (hden : (check_rate_limit (.ok s) now uid g limit).1 = false) :
    (rateLoop (.ok s) now uid ((g, limit) :: rest)).1 =
      { allowed := false, retry_after := some (granSeconds g) } := by
  have hg : get_retry_after g = granSeconds g := by cases g <;> rfl
  simp [rateLoop, hne, hden, hg]

/-- Witness for C6 (amended): at time 30 with the minute bucket full, the
denial reports the full 60-second width. -/
theorem retry_after_full_bucket_width_witness :
    (rateLoop (Backend.ok storeFullMinute) 30 ("u")
        ((Gran.minute, (30 : Int)) ::
          [(Gran.hour, (500 : Int)), (Gran.day, (2000 : Int))])).1 =
      { allowed := false, retry_after := some (granSeconds Gran.minute) } :=
  retry_after_full_bucket_width storeFullMinute 30 ("u") .minute 30
    [(.hour, 500), (.day, 2000)] (by decide) rfl

/-- Window keys with different granularities differ. -/
theorem rkey_ne_of_gran {u1 u2 : String} {g1 g2 : Gran} {b1 b2 : Nat}
    (h : g1 ≠ g2) : (⟨u1, g1, b1⟩ : RKey) ≠ ⟨u2, g2, b2⟩ := by
  intro he
  injection he with h1 h2 h3
  exact h h2

/-- Window keys with different buckets differ. -/
theorem rkey_ne_of_bucket {u1 u2 : String} {g1 g2 : Gran} {b1 b2 : Nat}
    (h : b1 ≠ b2) : (⟨u1, g1, b1⟩ : RKey) ≠ ⟨u2, g2, b2⟩ := by
  intro he
  injection he with h1 h2 h3
  exact h h3

/-- Counting admit: a live, unexpired bucket below the limit admits and
only increments. -/
theorem check_rate_limit_counting (s : Store) (now : Nat) (uid : String)
    (g : Gran) (lim n exp : Nat)
    (hlook : s ⟨uid, g, bucketOf g now⟩ = some (n, exp))
    (hexp : ¬(exp ≤ now)) (hn : 1 ≤ n) (hle : n + 1 ≤ lim) :
    check_rate_limit (.ok s) now uid g (lim : Int) =
      (true, .ok (bump s ⟨uid, g, bucketOf g now⟩ (n + 1) exp)) := by
  have h1 : ¬(n + 1 = 1) := by omega
  simp only [check_rate_limit, incrCounter, hlook]
  simp [hexp, h1, hle]
  omega

/-- Counting deny: a live, unexpired bucket at the limit increments and
denies. -/
theorem check_rate_limit_deny (s : Store) (now : Nat) (uid : String)
    (g : Gran) (lim n exp : Nat)
    (hlook : s ⟨uid, g, bucketOf g now⟩ = some (n, exp))
    (hexp : ¬(exp ≤ now)) (hn : 1 ≤ n) (hgt : lim < n + 1) :
    check_rate_limit (.ok s) now uid g (lim : Int) =
      (false, .ok (bump s ⟨uid, g, bucketOf g now⟩ (n + 1) exp)) := by
  have h1 : ¬(n + 1 = 1) := by omega
  have h2 : ¬((n : Int) + 1 ≤ (lim : Int)) := by omega
  simp only [check_rate_limit, incrCounter, hlook]
  simp [hexp, h1, h2]

/-- Fresh bucket: an absent key is created at count 1 with a fresh TTL and
admits when the limit is at least 1. -/
theorem check_rate_limit_fresh (s : Store) (now : Nat) (uid : String)
    (g : Gran) (lim : Nat)
    (hlook : s ⟨uid, g, bucketOf g now⟩ = none) (hle : 1 ≤ lim) :
    check_rate_limit (.ok s) now uid g (lim : Int) =
      (true, .ok (bump s ⟨uid, g, bucketOf g now⟩ 1 (now + granSeconds g))) := by
  simp only [check_rate_limit, incrCounter, hlook]
  simp [hle]

/-- One admitted same-minute request moves the store from `n` to `n + 1`
on all three granularities. -/
theorem rateLoop_allow_step (uid : String) (t1 t : Nat) (km kh kd n : Nat)
    (hn : 1 ≤ n) (hb : t / 60 = t1 / 60)
    (hm : n + 1 ≤ km) (hh : n + 1 ≤ kh) (hd : n + 1 ≤ kd) :
    rateLoop (.ok (stateAfterN uid t1 n)) t uid
        [(.minute, (km : Int)), (.hour, (kh : Int)), (.day, (kd : Int))] =
      ({ allowed := true, retry_after := none },
        .ok (stateAfterN uid t1 (n + 1))) := by
  have hbh : t / 3600 = t1 / 3600 := by omega
  have hbd : t / 86400 = t1 / 86400 := by omega
  have hl60 : ¬(t1 + 60 ≤ t) := by omega
  have hl3600 : ¬(t1 + 3600 ≤ t) := by omega
  have hl86400 : ¬(t1 + 86400 ≤ t) := by omega
  have e1 : bucketOf .minute t = t1 / 60 := by
    simpa [bucketOf, granSeconds] using hb
  have e2 : bucketOf .hour t = t1 / 3600 := by
    simpa [bucketOf, granSeconds] using hbh
  have e3 : bucketOf .day t = t1 / 86400 := by
    simpa [bucketOf, granSeconds] using hbd
  have l1 : stateAfterN uid t1 n ⟨uid, .minute, bucketOf .minute t⟩ =
      some (n, t1 + 60) := by
    rw [e1]
    simp [stateAfterN]
  have c1 := check_rate_limit_counting (stateAfterN uid t1 n) t uid .minute
    km n (t1 + 60) l1 hl60 hn hm
  have l2 : bump (stateAfterN uid t1 n) ⟨uid, .minute, bucketOf .minute t⟩
      (n + 1) (t1 + 60) ⟨uid, .hour, bucketOf .hour t⟩ =
      some (n, t1 + 3600) := by
    rw [e1, e2]
    simp [bump, stateAfterN, RKey.mk.injEq]
  have c2 := check_rate_limit_counting _ t uid .hour kh n (t1 + 3600) l2
    hl3600 hn hh
  have l3 : bump (bump (stateAfterN uid t1 n)
        ⟨uid, .minute, bucketOf .minute t⟩ (n + 1) (t1 + 60))
        ⟨uid, .hour, bucketOf .hour t⟩ (n + 1) (t1 + 3600)
        ⟨uid, .day, bucketOf .day t⟩ = some (n, t1 + 86400) := by
    rw [e1, e2, e3]
    simp [bump, stateAfterN, RKey.mk.injEq]
  have c3 := check_rate_limit_counting _ t uid .day kd n (t1 + 86400) l3
    hl86400 hn hd
  have nm : ¬((km : Int) = -1) := by omega
  have nh : ¬((kh : Int) = -1) := by omega
  have nd : ¬((kd : Int) = -1) := by omega
  have final : bump (bump (bump (stateAfterN uid t1 n)
        ⟨uid, .minute, bucketOf .minute t⟩ (n + 1) (t1 + 60))
        ⟨uid, .hour, bucketOf .hour t⟩ (n + 1) (t1 + 3600))
        ⟨uid, .day, bucketOf .day t⟩ (n + 1) (t1 + 86400) =
      stateAfterN uid t1 (n + 1) := by
    rw [e1, e2, e3]
    funext q
    by_cases h1 : q = ⟨uid, .minute, t1 / 60⟩
    · subst h1
      simp [bump, stateAfterN, RKey.mk.injEq]
    · by_cases h2 : q = ⟨uid, .hour, t1 / 3600⟩
      · subst h2
        simp [bump, stateAfterN, RKey.mk.injEq]
      · by_cases h3 : q = ⟨uid, .day, t1 / 86400⟩
        · subst h3
          simp [bump, stateAfterN, RKey.mk.injEq]
        · simp [bump, stateAfterN, h1, h2, h3]
  simp [rateLoop, nm, nh, nd, c1, c2, c3, final]

/-- The very first request (on an empty store) is admitted and creates all
three buckets at count 1 with their TTLs. -/
theorem rateLoop_first (uid : String) (t1 : Nat) (km kh kd : Nat)
    (hm : 1 ≤ km) (hh : 1 ≤ kh) (hd : 1 ≤ kd) :
    rateLoop (.ok emptyStore) t1 uid
        [(.minute, (km : Int)), (.hour, (kh : Int)), (.day, (kd : Int))] =
      ({ allowed := true, retry_after := none },
        .ok (stateAfterN uid t1 1)) := by
  have l1 : emptyStore ⟨uid, .minute, bucketOf .minute t1⟩ = none := rfl
  have c1 := check_rate_limit_fresh emptyStore t1 uid .minute km l1 hm
  have l2 : bump emptyStore ⟨uid, .minute, bucketOf .minute t1⟩ 1
      (t1 + granSeconds .minute) ⟨uid, .hour, bucketOf .hour t1⟩ = none := by
    simp [bump, emptyStore, RKey.mk.injEq]
  have c2 := check_rate_limit_fresh _ t1 uid .hour kh l2 hh
  have l3 : bump (bump emptyStore ⟨uid, .minute, bucketOf .minute t1⟩ 1
        (t1 + granSeconds .minute)) ⟨uid, .hour, bucketOf .hour t1⟩ 1
        (t1 + granSeconds .hour) ⟨uid, .day, bucketOf .day t1⟩ = none := by
    simp [bump, emptyStore, RKey.mk.injEq]
  have c3 := check_rate_limit_fresh _ t1 uid .day kd l3 hd
  have nm : ¬((km : Int) = -1) := by omega
  have nh : ¬((kh : Int) = -1) := by omega
  have nd : ¬((kd : Int) = -1) := by omega
  have final : bump (bump (bump emptyStore
        ⟨uid, .minute, bucketOf .minute t1⟩ 1 (t1 + granSeconds .minute))
        ⟨uid, .hour, bucketOf .hour t1⟩ 1 (t1 + granSeconds .hour))
        ⟨uid, .day, bucketOf .day t1⟩ 1 (t1 + granSeconds .day) =
      stateAfterN uid t1 1 := by
    funext q
    by_cases h1 : q = ⟨uid, .minute, t1 / 60⟩
    · subst h1
      simp [bump, emptyStore, stateAfterN, bucketOf, granSeconds,
        RKey.mk.injEq]
    · by_cases h2 : q = ⟨uid, .hour, t1 / 3600⟩
      · subst h2
        simp [bump, emptyStore, stateAfterN, bucketOf, granSeconds,
          RKey.mk.injEq]
      · by_cases h3 : q = ⟨uid, .day, t1 / 86400⟩
        · subst h3
          simp [bump, emptyStore, stateAfterN, bucketOf, granSeconds,
            RKey.mk.injEq]
        · simp [bump, emptyStore, stateAfterN, bucketOf, granSeconds,
            h1, h2, h3]
  simp [rateLoop, nm, nh, nd, c1, c2, c3, final]

/-- A further same-minute request on a full minute bucket is denied with
`retry_after = 60`, incrementing only the minute counter. -/
theorem rateLoop_deny_step (uid : String) (t1 t : Nat) (km kh kd n : Nat)
    (hn : 1 ≤ n) (hb : t / 60 = t1 / 60) (hgt : km < n + 1) :
    rateLoop (.ok (stateAfterN uid t1 n)) t uid
        [(.minute, (km : Int)), (.hour, (kh : Int)), (.day, (kd : Int))] =
      ({ allowed := false, retry_after := some 60 },
        .ok (stateDenied uid t1 n)) := by
  have hl60 : ¬(t1 + 60 ≤ t) := by omega
  have e1 : bucketOf .minute t = t1 / 60 := by
    simpa [bucketOf, granSeconds] using hb
  have l1 : stateAfterN uid t1 n ⟨uid, .minute, bucketOf .minute t⟩ =
      some (n, t1 + 60) := by
    rw [e1]
    simp [stateAfterN]
  have c1 := check_rate_limit_deny (stateAfterN uid t1 n) t uid .minute km n
    (t1 + 60) l1 hl60 hn hgt
  have nm : ¬((km : Int) = -1) := by omega
  have final : bump (stateAfterN uid t1 n)
      ⟨uid, .minute, bucketOf .minute t⟩ (n + 1) (t1 + 60) =
      stateDenied uid t1 n := by
    rw [e1]
    rfl
  simp [rateLoop, nm, c1, final, get_retry_after]

/-- The first request of the next minute bucket is admitted when the hour
and day limits still have room for one more request. -/
theorem rateLoop_next_minute (uid : String) (t1 tn : Nat) (km kh kd n : Nat)
    (hn : 1 ≤ n) (hb : tn / 60 = t1 / 60 + 1)
    (hm : 1 ≤ km) (hh : n + 1 ≤ kh) (hd : n + 1 ≤ kd) :
    (rateLoop (.ok (stateDenied uid t1 n)) tn uid
        [(.minute, (km : Int)), (.hour, (kh : Int)), (.day, (kd : Int))]).1 =
      { allowed := true, retry_after := none } := by
  have hlt : tn < t1 + 120 := by omega
  have nm : ¬((km : Int) = -1) := by omega
  have nh : ¬((kh : Int) = -1) := by omega
  have nd : ¬((kd : Int) = -1) := by omega
  have hkh1 : 1 ≤ kh := by omega
  have hkd1 : 1 ≤ kd := by omega
  have e1 : bucketOf .minute tn = t1 / 60 + 1 := by
    simpa [bucketOf, granSeconds] using hb
  have l1 : stateDenied uid t1 n ⟨uid, .minute, bucketOf .minute tn⟩ =
      none := by
    rw [e1]
    simp [stateDenied, bump, stateAfterN, RKey.mk.injEq]
  have c1 := check_rate_limit_fresh _ tn uid .minute km l1 hm
  by_cases hch : tn / 3600 = t1 / 3600
  · have e2 : bucketOf .hour tn = t1 / 3600 := by
      simpa [bucketOf, granSeconds] using hch
    have l2 : bump (stateDenied uid t1 n)
        ⟨uid, .minute, bucketOf .minute tn⟩ 1 (tn + granSeconds .minute)
        ⟨uid, .hour, bucketOf .hour tn⟩ = some (n, t1 + 3600) := by
      rw [e2]
      simp [bump, stateDenied, stateAfterN, RKey.mk.injEq]
    have hx : ¬(t1 + 3600 ≤ tn) := by omega
    have c2 := check_rate_limit_counting _ tn uid .hour kh n (t1 + 3600) l2
      hx hn hh
    by_cases hcd : tn / 86400 = t1 / 86400
    · have e3 : bucketOf .day tn = t1 / 86400 := by
        simpa [bucketOf, granSeconds] using hcd
      have l3 : bump (bump (stateDenied uid t1 n)
          ⟨uid, .minute, bucketOf .minute tn⟩ 1 (tn + granSeconds .minute))
          ⟨uid, .hour, bucketOf .hour tn⟩ (n + 1) (t1 + 3600)
          ⟨uid, .day, bucketOf .day tn⟩ = some (n, t1 + 86400) := by
        rw [e3]
        simp [bump, stateDenied, stateAfterN, RKey.mk.injEq]
      have hx2 : ¬(t1 + 86400 ≤ tn) := by omega
      have c3 := check_rate_limit_counting _ tn uid .day kd n (t1 + 86400) l3
        hx2 hn hd
      simp [rateLoop, nm, nh, nd, c1, c2, c3]
    · have e3 : bucketOf .day tn ≠ t1 / 86400 := by
        simpa [bucketOf, granSeconds] using hcd
      have l3 : bump (bump (stateDenied uid t1 n)
          ⟨uid, .minute, bucketOf .minute tn⟩ 1 (tn + granSeconds .minute))
          ⟨uid, .hour, bucketOf .hour tn⟩ (n + 1) (t1 + 3600)
          ⟨uid, .day, bucketOf .day tn⟩ = none := by
        simp [bump, stateDenied, stateAfterN, RKey.mk.injEq, e3]
      have c3 := check_rate_limit_fresh _ tn uid .day kd l3 hkd1
      simp [rateLoop, nm, nh, nd, c1, c2, c3]
  · have e2 : bucketOf .hour tn ≠ t1 / 3600 := by
      simpa [bucketOf, granSeconds] using hch
    have l2 : bump (stateDenied uid t1 n)
        ⟨uid, .minute, bucketOf .minute tn⟩ 1 (tn + granSeconds .minute)
        ⟨uid, .hour, bucketOf .hour tn⟩ = none := by
      simp [bump, stateDenied, stateAfterN, RKey.mk.injEq, e2]
    have c2 := check_rate_limit_fresh _ tn uid .hour kh l2 hkh1
    by_cases hcd : tn / 86400 = t1 / 86400
    · have e3 : bucketOf .day tn = t1 / 86400 := by
        simpa [bucketOf, granSeconds] using hcd
      have l3 : bump (bump (stateDenied uid t1 n)
          ⟨uid, .minute, bucketOf .minute tn⟩ 1 (tn + granSeconds .minute))
          ⟨uid, .hour, bucketOf .hour tn⟩ 1 (tn + granSeconds .hour)
          ⟨uid, .day, bucketOf .day tn⟩ = some (n, t1 + 86400) := by
        rw [e3]
        simp [bump, stateDenied, stateAfterN, RKey.mk.injEq]
      have hx2 : ¬(t1 + 86400 ≤ tn) := by omega
      have c3 := check_rate_limit_counting _ tn uid .day kd n (t1 + 86400) l3
        hx2 hn hd
      simp [rateLoop, nm, nh, nd, c1, c2, c3]
    · have e3 : bucketOf .day tn ≠ t1 / 86400 := by
        simpa [bucketOf, granSeconds] using hcd
      have l3 : bump (bump (stateDenied uid t1 n)
          ⟨uid, .minute, bucketOf .minute tn⟩ 1 (tn + granSeconds .minute))
          ⟨uid, .hour, bucketOf .hour tn⟩ 1 (tn + granSeconds .hour)
          ⟨uid, .day, bucketOf .day tn⟩ = none := by
        simp [bump, stateDenied, stateAfterN, RKey.mk.injEq, e3]
      have c3 := check_rate_limit_fresh _ tn uid .day kd l3 hkd1
      simp [rateLoop, nm, nh, nd, c1, c2, c3]

/-- Running a same-minute batch of requests from count `n` admits them all
and counts them. -/
theorem rateSim_allows (uid : String) (t1 : Nat) (km kh kd : Nat)
    (hh : km + 1 ≤ kh) (hd : km + 1 ≤ kd) :
    ∀ (ts : List Nat) (n : Nat), 1 ≤ n → n + ts.length ≤ km →
      (∀ t ∈ ts, t / 60 = t1 / 60) →
      rateSim [(.minute, (km : Int)), (.hour, (kh : Int)), (.day, (kd : Int))]
          (.ok (stateAfterN uid t1 n)) uid ts =
        (List.replicate ts.length { allowed := true, retry_after := none },
          .ok (stateAfterN uid t1 (n + ts.length))) := by
  intro ts
  induction ts with
  | nil =>
      intro n hn _ _
      simp [rateSim]
  | cons t ts ih =>
      intro n hn hle hall
      rw [List.length_cons] at hle
      have hm : n + 1 ≤ km := by omega
      have hh' : n + 1 ≤ kh := by omega
      have hd' : n + 1 ≤ kd := by omega
      simp only [rateSim]
      rw [rateLoop_allow_step uid t1 t km kh kd n hn (hall t (by simp)) hm
        hh' hd']
      rw [ih (n + 1) (by omega) (by omega)
        (fun x hx => hall x (by simp [hx]))]
      simp only [List.length_cons, List.replicate_succ]
      rw [show n + 1 + ts.length = n + (ts.length + 1) from by omega]

/-- The sequential runner over a tier equals the generic runner over that
tier's limits table. -/
theorem runRequests_eq_rateSim (uid : String) (tier : Tier) :
    ∀ (ts : List Nat) (b : Backend),
      runRequests b uid tier ts = rateSim (rateLimitsFor tier) b uid ts := by
  intro ts
  induction ts with
  | nil => intro b; rfl
  | cons t ts ih =>
      intro b
      simp [runRequests, rateSim, apply_rate_limiting, ih]

/-- Full minute-window scenario over a generic limits triple: `km`
same-minute requests from an empty store are all admitted, the next
same-minute request is denied with `retry_after = 60`, and the first
request of the following minute bucket is admitted. -/
theorem minute_window_general (uid : String) (t1 : Nat) (rest : List Nat)
    (tdeny tnext : Nat) (km kh kd : Nat) (hm : 1 ≤ km)
    (hh : km + 1 ≤ kh) (hd : km + 1 ≤ kd)
    (hlen : rest.length + 1 = km)
    (hall : ∀ t ∈ t1 :: rest, t / 60 = t1 / 60)
    (hdeny : tdeny / 60 = t1 / 60) (hnext : tnext / 60 = t1 / 60 + 1) :
    rateSim [(.minute, (km : Int)), (.hour, (kh : Int)), (.day, (kd : Int))]
        (.ok emptyStore) uid (t1 :: rest) =
      (List.replicate km { allowed := true, retry_after := none },
        .ok (stateAfterN uid t1 km)) ∧
    rateLoop (.ok (stateAfterN uid t1 km)) tdeny uid
        [(.minute, (km : Int)), (.hour, (kh : Int)), (.day, (kd : Int))] =
      ({ allowed := false, retry_after := some 60 },
        .ok (stateDenied uid t1 km)) ∧
    (rateLoop (.ok (stateDenied uid t1 km)) tnext uid
        [(.minute, (km : Int)), (.hour, (kh : Int)), (.day, (kd : Int))]).1 =
      { allowed := true, retry_after := none } := by
  refine ⟨?_, ?_, ?_⟩
  · simp only [rateSim]
    rw [rateLoop_first uid t1 km kh kd hm (by omega) (by omega)]
    rw [rateSim_allows uid t1 km kh kd hh hd rest 1 le_rfl (by omega)
      (fun x hx => hall x (by simp [hx]))]
    rw [show (1 : Nat) + rest.length = rest.length + 1 from by omega]
    rw [← hlen, List.replicate_succ]
  · exact rateLoop_deny_step uid t1 tdeny km kh kd km hm hdeny (by omega)
  · exact rateLoop_next_minute uid t1 tnext km kh kd km hm hnext hm hh hd

/-- C4: on a tier with a finite per-minute limit `K ≥ 1`, the first `K`
requests of a minute bucket are admitted, the `(K+1)`-th request in the
same bucket is denied with `retry_after = 60` (hence at most 60), and the
first request of the next minute bucket is admitted. -/
theorem rate_limit_minute_window (tier : Tier) (K : Nat)
    (hK : minuteLimitOf tier = (K : Int)) (hK1 : 1 ≤ K) (uid : String)
    (t1 : Nat) (rest : List Nat) (tdeny tnext : Nat)
    (hlen : (t1 :: rest).length = K)
    (hall : ∀ t ∈ t1 :: rest, t / 60 = t1 / 60)
    (hdeny : tdeny / 60 = t1 / 60) (hnext : tnext / 60 = t1 / 60 + 1) :
    (∀ d ∈ (runRequests (.ok emptyStore) uid tier (t1 :: rest)).1,
      d = { allowed := true, retry_after := none }) ∧
    ((apply_rate_limiting
        (runRequests (.ok emptyStore) uid tier (t1 :: rest)).2 tdeny uid
        tier).1 =
      { allowed := false, retry_after := some 60 }) ∧
    ((apply_rate_limiting
        (apply_rate_limiting
          (runRequests (.ok emptyStore) uid tier (t1 :: rest)).2 tdeny uid
          tier).2 tnext uid tier).1 =
      { allowed := true, retry_after := none }) := by
  rw [List.length_cons] at hlen
  cases tier with
  | enterprise =>
      simp [minuteLimitOf, rateLimitsFor] at hK
  | free =>
      have hK30 : K = 30 := by
        simp [minuteLimitOf, rateLimitsFor] at hK
        omega
      subst hK30
      have hlist : rateLimitsFor Tier.free =
          [(.minute, ((30 : Nat) : Int)), (.hour, ((500 : Nat) : Int)),
            (.day, ((2000 : Nat) : Int))] := rfl
      obtain ⟨w1, w2, w3⟩ := minute_window_general uid t1 rest tdeny tnext
        30 500 2000 (by omega) (by omega) (by omega) hlen hall hdeny hnext
      refine ⟨?_, ?_, ?_⟩
      · intro d hd
        rw [runRequests_eq_rateSim uid Tier.free, hlist, w1] at hd
        exact List.eq_of_mem_replicate hd
      · rw [runRequests_eq_rateSim uid Tier.free, hlist, w1]
        show (rateLoop _ _ _ (rateLimitsFor Tier.free)).1 = _
        rw [hlist, w2]
      · rw [runRequests_eq_rateSim uid Tier.free, hlist, w1]
        show (rateLoop ((rateLoop _ _ _ (rateLimitsFor Tier.free)).2) _ _
          (rateLimitsFor Tier.free)).1 = _
        rw [hlist, w2, w3]
  | premium =>
      have hK100 : K = 100 := by
        simp [minuteLimitOf, rateLimitsFor] at hK
        omega
      subst hK100
      have hlist : rateLimitsFor Tier.premium =
          [(.minute, ((100 : Nat) : Int)), (.hour, ((2000 : Nat) : Int)),
            (.day, ((10000 : Nat) : Int))] := rfl
      obtain ⟨w1, w2, w3⟩ := minute_window_general uid t1 rest tdeny tnext
        100 2000 10000 (by omega) (by omega) (by omega) hlen hall hdeny hnext
      refine ⟨?_, ?_, ?_⟩
      · intro d hd
        rw [runRequests_eq_rateSim uid Tier.premium, hlist, w1] at hd
        exact List.eq_of_mem_replicate hd
      · rw [runRequests_eq_rateSim uid Tier.premium, hlist, w1]
        show (rateLoop _ _ _ (rateLimitsFor Tier.premium)).1 = _
        rw [hlist, w2]
      · rw [runRequests_eq_rateSim uid Tier.premium, hlist, w1]
        show (rateLoop ((rateLoop _ _ _ (rateLimitsFor Tier.premium)).2) _ _
          (rateLimitsFor Tier.premium)).1 = _
        rw [hlist, w2, w3]

/-- Witness for C4: a Free account sending 30 requests at second 0 has its
31st same-minute request (at second 30) denied with `retry_after = 60`,
and its first request of minute bucket 1 (at second 60) admitted. -/
theorem rate_limit_minute_window_witness :
    ((apply_rate_limiting
        (runRequests (.ok emptyStore) ("u") Tier.free
          ((0 : Nat) :: List.replicate 29 0)).2 30 ("u") Tier.free).1 =
      { allowed := false, retry_after := some 60 }) ∧
    ((apply_rate_limiting
        (apply_rate_limiting
          (runRequests (.ok emptyStore) ("u") Tier.free
            ((0 : Nat) :: List.replicate 29 0)).2 30 ("u") Tier.free).2 60
        ("u") Tier.free).1 =
      { allowed := true, retry_after := none }) :=
  ⟨(rate_limit_minute_window Tier.free 30 rfl (by decide) ("u") 0
      (List.replicate 29 0) 30 60 (by decide) (by decide) (by decide)
      (by decide)).2.1,
   (rate_limit_minute_window Tier.free 30 rfl (by decide) ("u") 0
      (List.replicate 29 0) 30 60 (by decide) (by decide) (by decide)
      (by decide)).2.2⟩

end Fisioflow
